import Mathlib

/-
Verification development for the Treeship python SDK
(`packages/sdk-python/treeship/client.py`, `packages/sdk-python/treeship_sdk/client.py`,
`packages/sdk-python/treeship_sdk/async_client.py`, `packages/sidecar/main.py`).

The embedding is shallow: python functions become Lean functions; the HTTP
transport is modelled by an explicit `HttpResult` describing the server's
response (or the timeout / network fault the call ran into); the Ed25519
primitive of the `cryptography` library is a boolean-valued parameter of the
model (`Env`); python exceptions become explicit failure values.  SHA-256,
canonical JSON serialization (`json.dumps(..., sort_keys=True,
separators=(",", ":"))`), UTF-8 encoding and base64url decoding are implemented
executably, following the semantics of the python standard library.
-/

/-- JSON values, the data model shared by `json.dumps` and `response.json()`
in the SDK.  Objects keep key insertion order, exactly as python dicts do. -/
inductive Json where
  | null : Json
  | bool (b : Bool) : Json
  | num (n : Int) : Json
  | str (s : String) : Json
  | arr (xs : List Json) : Json
  | obj (kvs : List (String × Json)) : Json

/-- The opening brace character, written by its code point. -/
def obChar : Char := Char.ofNat 123

/-- The closing brace character, written by its code point. -/
def cbChar : Char := Char.ofNat 125

/-- Lowercase hexadecimal digit for `n % 16`, as python's `%x` formatting. -/
def hexDigit (n : Nat) : Char :=
  if n % 16 < 10 then Char.ofNat (48 + n % 16) else Char.ofNat (87 + n % 16)

/-- Four lowercase hex digits of `n % 65536`, as python's `\uXXXX` escapes. -/
def hex4 (n : Nat) : List Char :=
  [hexDigit (n / 4096), hexDigit (n / 256), hexDigit (n / 16), hexDigit n]

/-- One character escaped the way `json.dumps` (with its default
`ensure_ascii=True`) escapes it inside a string literal. -/
def escChar (c : Char) : List Char :=
  if c = '\"' then ['\\', '\"']
  else if c = '\\' then ['\\', '\\']
  else if c = '\n' then ['\\', 'n']
  else if c = '\t' then ['\\', 't']
  else if c = '\r' then ['\\', 'r']
  else if c = Char.ofNat 8 then ['\\', 'b']
  else if c = Char.ofNat 12 then ['\\', 'f']
  else if c.toNat < 32 ∨ 126 < c.toNat then
    if c.toNat < 65536 then '\\' :: 'u' :: hex4 c.toNat
    else
      let n := c.toNat - 65536
      ('\\' :: 'u' :: hex4 (55296 + n / 1024)) ++ ('\\' :: 'u' :: hex4 (56320 + n % 1024))
  else [c]

/-- A python/JSON string literal: quotes around the escaped characters. -/
def pyQuote (s : String) : String :=
  String.mk ('\"' :: s.data.foldr (fun c acc => escChar c ++ acc) ['\"'])

/-- Comparison of rendered object entries by their key, the order
`sort_keys=True` sorts by (python compares `str` keys lexicographically by
code point, which is exactly the `String` linear order). -/
def keyLe (p q : String × String) : Prop := p.1 ≤ q.1

instance : DecidableRel keyLe := fun p q => inferInstanceAs (Decidable (p.1 ≤ q.1))

/-- Rendering of one already-serialized object entry, with the `":"`
separator of `separators=(",", ":")`. -/
def entryStr (p : String × String) : String := pyQuote p.1 ++ ":" ++ p.2

mutual

/-- `json.dumps(v, sort_keys=True, separators=(",", ":"))`: compact
serialization with object keys sorted ascending.  Entries are rendered first
and then stable-sorted by key, which agrees with python because `sorted` is
stable and compares keys only. -/
def dumps : Json → String
  | .null => "null"
  | .bool true => "true"
  | .bool false => "false"
  | .num n => toString n
  | .str s => pyQuote s
  | .arr xs => "[" ++ String.intercalate "," (dumpsList xs) ++ "]"
  | .obj kvs =>
      String.singleton obChar ++
        String.intercalate "," ((List.insertionSort keyLe (dumpsPairs kvs)).map entryStr) ++
        String.singleton cbChar

/-- Serialization of the elements of a JSON array, in order. -/
def dumpsList : List Json → List String
  | [] => []
  | x :: xs => dumps x :: dumpsList xs

/-- Serialization of the values of the entries of a JSON object,
keeping each key with its rendered value. -/
def dumpsPairs : List (String × Json) → List (String × String)
  | [] => []
  | (k, v) :: kvs => (k, dumps v) :: dumpsPairs kvs

end

/-- UTF-8 encoding of a single code point, as python `str.encode("utf-8")`. -/
def utf8Char (c : Char) : List Nat :=
  let n := c.toNat
  if n < 128 then [n]
  else if n < 2048 then [192 + n / 64, 128 + n % 64]
  else if n < 65536 then [224 + n / 4096, 128 + n / 64 % 64, 128 + n % 64]
  else [240 + n / 262144, 128 + n / 4096 % 64, 128 + n / 64 % 64, 128 + n % 64]

/-- UTF-8 encoding of a string, as python `str.encode("utf-8")` (also the
result of `.encode()` with no argument). -/
def utf8Encode (s : String) : List Nat :=
  s.data.foldr (fun c acc => utf8Char c ++ acc) []

/-! ### SHA-256 (`hashlib.sha256`) -/

/-- Truncation to a 32-bit word. -/
def w32 (n : Nat) : Nat := n % 4294967296

/-- Right rotation of a 32-bit word. -/
def rotr32 (x n : Nat) : Nat := w32 ((x >>> n) ||| (x <<< (32 - n)))

/-- The sixty-four SHA-256 round constants of FIPS 180-4, in decimal. -/
def shaK : Array Nat := #[
  1116352408, 1899447441, 3049323471, 3921009573,
  961987163, 1508970993, 2453635748, 2870763221,
  3624381080, 310598401, 607225278, 1426881987,
  1925078388, 2162078206, 2614888103, 3248222580,
  3835390401, 4022224774, 264347078, 604807628,
  770255983, 1249150122, 1555081692, 1996064986,
  2554220882, 2821834349, 2952996808, 3210313671,
  3336571891, 3584528711, 113926993, 338241895,
  666307205, 773529912, 1294757372, 1396182291,
  1695183700, 1986661051, 2177026350, 2456956037,
  2730485921, 2820302411, 3259730800, 3345764771,
  3516065817, 3600352804, 4094571909, 275423344,
  430227734, 506948616, 659060556, 883997877,
  958139571, 1322822218, 1537002063, 1747873779,
  1955562222, 2024104815, 2227730452, 2361852424,
  2428436474, 2756734187, 3204031479, 3329325298]

/-- The eight 32-bit words of SHA-256 working state. -/
structure Sha256State where
  h0 : Nat
  h1 : Nat
  h2 : Nat
  h3 : Nat
  h4 : Nat
  h5 : Nat
  h6 : Nat
  h7 : Nat

/-- The eight SHA-256 initial hash words of FIPS 180-4, in decimal. -/
def shaInitState : Sha256State :=
  ⟨1779033703, 3144134277, 1013904242, 2773480762,
   1359893119, 2600822924, 528734635, 1541459225⟩

/-- Big-endian packing of bytes into 32-bit words. -/
def bytesToWords : List Nat → List Nat
  | b0 :: b1 :: b2 :: b3 :: rest => (((b0 * 256 + b1) * 256 + b2) * 256 + b3) :: bytesToWords rest
  | _ => []

/-- SHA-256 schedule function sigma-0. -/
def smallSigma0 (x : Nat) : Nat := rotr32 x 7 ^^^ rotr32 x 18 ^^^ (x >>> 3)

/-- SHA-256 schedule function sigma-1. -/
def smallSigma1 (x : Nat) : Nat := rotr32 x 17 ^^^ rotr32 x 19 ^^^ (x >>> 10)

/-- SHA-256 round function Sigma-0. -/
def bigSigma0 (x : Nat) : Nat := rotr32 x 2 ^^^ rotr32 x 13 ^^^ rotr32 x 22

/-- SHA-256 round function Sigma-1. -/
def bigSigma1 (x : Nat) : Nat := rotr32 x 6 ^^^ rotr32 x 11 ^^^ rotr32 x 25

/-- Extension of the sixteen block words to the sixty-four schedule words. -/
def msgSchedule (ws : List Nat) : Array Nat :=
  (List.range 48).foldl
    (fun w i =>
      let t := i + 16
      w.push (w32 (w.getD (t - 16) 0 + smallSigma0 (w.getD (t - 15) 0) +
        w.getD (t - 7) 0 + smallSigma1 (w.getD (t - 2) 0))))
    ws.toArray

/-- Compression of one 64-byte block into the running state. -/
def compressBlock (st : Sha256State) (block : List Nat) : Sha256State :=
  let w := msgSchedule (bytesToWords block)
  let f := (List.range 64).foldl
    (fun s i =>
      let t1 := w32 (s.h7 + bigSigma1 s.h4 +
        ((s.h4 &&& s.h5) ^^^ ((s.h4 ^^^ 4294967295) &&& s.h6)) + shaK.getD i 0 + w.getD i 0)
      let t2 := w32 (bigSigma0 s.h0 + ((s.h0 &&& s.h1) ^^^ (s.h0 &&& s.h2) ^^^ (s.h1 &&& s.h2)))
      ⟨w32 (t1 + t2), s.h0, s.h1, s.h2, w32 (s.h3 + t1), s.h4, s.h5, s.h6⟩)
    st
  ⟨w32 (st.h0 + f.h0), w32 (st.h1 + f.h1), w32 (st.h2 + f.h2), w32 (st.h3 + f.h3),
   w32 (st.h4 + f.h4), w32 (st.h5 + f.h5), w32 (st.h6 + f.h6), w32 (st.h7 + f.h7)⟩

/-- SHA-256 message padding: a `0x80` byte, zeros to 56 mod 64, and the
bit length as a 64-bit big-endian integer. -/
def shaPad (msg : List Nat) : List Nat :=
  let l := msg.length
  let padZeros := (120 - (l + 1) % 64) % 64
  let bitLen := (8 * l) % 18446744073709551616
  msg ++ 128 :: List.replicate padZeros 0 ++
    [bitLen / 72057594037927936 % 256, bitLen / 281474976710656 % 256,
     bitLen / 1099511627776 % 256, bitLen / 4294967296 % 256,
     bitLen / 16777216 % 256, bitLen / 65536 % 256, bitLen / 256 % 256, bitLen % 256]

/-- Fuelled iteration over the 64-byte blocks of the padded message. -/
def processBlocks : Nat → List Nat → Sha256State → Sha256State
  | 0, _, s => s
  | _ + 1, [], s => s
  | fuel + 1, l, s => processBlocks fuel (l.drop 64) (compressBlock s (l.take 64))

/-- Big-endian bytes of a 32-bit word. -/
def wordBytes (w : Nat) : List Nat :=
  [w / 16777216 % 256, w / 65536 % 256, w / 256 % 256, w % 256]

/-- The 32-byte SHA-256 digest of a byte string. -/
def sha256Bytes (msg : List Nat) : List Nat :=
  let padded := shaPad msg
  let s := processBlocks padded.length padded shaInitState
  wordBytes s.h0 ++ wordBytes s.h1 ++ wordBytes s.h2 ++ wordBytes s.h3 ++
    wordBytes s.h4 ++ wordBytes s.h5 ++ wordBytes s.h6 ++ wordBytes s.h7

/-- Two lowercase hex characters of a byte, as `hexdigest` renders it. -/
def byteHex (b : Nat) : List Char := [hexDigit (b / 16), hexDigit b]

/-- Lowercase hex characters of a byte string. -/
def bytesHex (bs : List Nat) : List Char :=
  bs.foldr (fun b acc => byteHex b ++ acc) []

/-- `hashlib.sha256(msg).hexdigest()`: the lowercase hex digest string. -/
def sha256hex (msg : List Nat) : String := String.mk (bytesHex (sha256Bytes msg))

/-! ### base64url decoding (`base64.urlsafe_b64decode`) -/

/-- Value of one base64 character under the urlsafe alphabet (python's
`urlsafe_b64decode` translates `-_` to `+/` and then decodes with the
standard alphabet, so both alphabets' characters are accepted). -/
def b64Val (c : Char) : Option Nat :=
  if 'A' ≤ c ∧ c ≤ 'Z' then some (c.toNat - 65)
  else if 'a' ≤ c ∧ c ≤ 'z' then some (c.toNat - 71)
  else if '0' ≤ c ∧ c ≤ '9' then some (c.toNat + 4)
  else if c = '-' ∨ c = '+' then some 62
  else if c = '_' ∨ c = '/' then some 63
  else none

/-- Decoding of a padding-stripped run of base64 characters: groups of four
characters give three bytes, a final group of three gives two, of two gives
one, and a final single character is invalid. -/
def b64Groups : List Char → Option (List Nat)
  | [] => some []
  | [_] => none
  | [a, b] =>
      match b64Val a, b64Val b with
      | some va, some vb => some [(va * 4 + vb / 16) % 256]
      | _, _ => none
  | [a, b, c] =>
      match b64Val a, b64Val b, b64Val c with
      | some va, some vb, some vc => some [(va * 4 + vb / 16) % 256, (vb * 16 + vc / 4) % 256]
      | _, _, _ => none
  | a :: b :: c :: d :: rest =>
      match b64Val a, b64Val b, b64Val c, b64Val d, b64Groups rest with
      | some va, some vb, some vc, some vd, some bs =>
          some ((va * 4 + vb / 16) % 256 :: (vb * 16 + vc / 4) % 256 ::
            (vc * 64 + vd) % 256 :: bs)
      | _, _, _, _, _ => none

/-- Removal of the trailing run of `'='` characters, as python
`bytes.rstrip(b"=")` would on the encoded text. -/
def dropTrailingEq (l : List Char) : List Char :=
  (l.reverse.dropWhile (fun c => c = '=')).reverse

/-- `base64.urlsafe_b64decode`: characters outside the alphabet are
discarded, the remaining length must be a multiple of four, and `none`
models the `binascii.Error` raised on invalid padding. -/
def b64urlDecode (s : String) : Option (List Nat) :=
  let cs := s.data.filter (fun c => (b64Val c).isSome || c = '=')
  if cs.length % 4 ≠ 0 then none
  else
    let body := dropTrailingEq cs
    if body.any (fun c => c = '=') then none else b64Groups body

/-! ### Python helpers shared by the clients -/

/-- Python `a or b` on strings, with `None` arguments modelled as `""`
(both are falsy and the clients treat them identically). -/
def pyOr (a b : String) : String := if a = "" then b else a

/-- Python slicing `s[:n]`, which truncates by code point. -/
def pyTake (n : Nat) (s : String) : String := String.mk (s.data.take n)

/-- Python truthiness of a decoded JSON value (`None`, `False`, `0`, `""`,
`[]` and `` the empty dict `` are falsy). -/
def jsonTruthy : Json → Bool
  | .null => false
  | .bool b => b
  | .num n => decide (n ≠ 0)
  | .str s => decide (s ≠ "")
  | .arr xs => !xs.isEmpty
  | .obj kvs => !kvs.isEmpty

/-- Truthiness of python `dict.get(k)`: a missing key gives `None`. -/
def pyTruthyOpt : Option Json → Bool
  | none => false
  | some v => jsonTruthy v

/-- Collapse of JSON `null` into python `None`: `json.loads` decodes `null`
as `None`, so a null value and a missing key are indistinguishable to the
client code. -/
def toPyOpt : Option Json → Option Json
  | some .null => none
  | x => x

/-- The `sig_b64 += "=" * (4 - len(sig_b64) % 4) if len(sig_b64) % 4 else ""`
padding restoration of `_verify_signature`. -/
def padB64 (s : String) : String :=
  if s.length % 4 ≠ 0 then s ++ String.mk (List.replicate (4 - s.length % 4) '=') else s

/-- Python `s.rstrip("=")`: the string without its trailing `'='` run. -/
def stripPadS (s : String) : String := String.mk (dropTrailingEq s.data)

/-! ### Transport and library environment -/

/-- Outcome of one HTTP call made through `httpx`: a response carrying a
status code and the result of decoding its body with `.json()` (`.error`
models the `json` decode exception), a timeout (`httpx.TimeoutException`
with its message), or any other network fault (with its `str(e)` message). -/
inductive HttpResult where
  | resp (status : Nat) (body : Except String Json)
  | timeout (msg : String)
  | netError (msg : String)

/-- Behaviour of the external libraries the client calls into:
`ed25519Verify key sig payload` is the boolean outcome of
`Ed25519PublicKey.from_public_bytes(key).verify(sig, payload)` (the
`cryptography` library raises `InvalidSignature` on `false`), and
`isoParse` is `datetime.fromisoformat`, `none` modelling its `ValueError`
and `some t` the parsed value (represented by its canonical text). -/
structure Env where
  ed25519Verify : List Nat → List Nat → List Nat → Bool
  isoParse : String → Option String

/-! ### `treeship/client.py` — `TreshipClient` -/

namespace TreshipClient

/-- The `AttestResult` dataclass of `treeship/client.py`.  `id`, `url` and
`signature` hold whatever JSON value `data.get(...)` returned (`none` for a
missing key or JSON `null`, which python conflates as `None`). -/
structure AttestResult where
  attested : Bool
  id : Option Json
  url : Option Json
  timestamp : Option String
  signature : Option Json
  error : Option String

/-- The `VerifyResult` dataclass of `treeship/client.py`. -/
structure VerifyResult where
  valid : Bool
  signature_valid : Bool
  key_matches : Bool
  attestation : Option Json
  error : Option String

/-- The configuration state of a `TreshipClient` after `__init__`. -/
structure State where
  api_key : String
  agent : String

/-- `TreshipClient.__init__`: `api_key or os.getenv("TREESHIP_API_KEY", "")`
and `agent or os.getenv("TREESHIP_AGENT", "python-agent")`, with `none`
standing for an unset environment variable and `""` for an omitted argument. -/
def init (apiKeyArg : String) (envApiKey : Option String)
    (agentArg : String) (envAgent : Option String) : State :=
  ⟨pyOr apiKeyArg (envApiKey.getD ""), pyOr agentArg (envAgent.getD "python-agent")⟩

/-- `TreshipClient._hash_inputs`: canonical JSON of the inputs dict
(`{}` when `None`) hashed with SHA-256. -/
def hash_inputs (inputs : Option (List (String × Json))) : String :=
  sha256hex (utf8Encode (dumps (.obj (inputs.getD []))))

/-- The JSON body `TreshipClient.attest` posts to `/v1/attest`: the agent
slug, the action truncated by `action[:500]`, the locally computed inputs
hash, and the metadata dict when it is truthy. -/
def attest_payload (st : State) (action : String) (inputs : Option (List (String × Json)))
    (agentArg : String) (metadata : Option (List (String × Json))) : Json :=
  .obj ([("agent_slug", .str (pyOr agentArg st.agent)),
         ("action", .str (pyTake 500 action)),
         ("inputs_hash", .str (hash_inputs inputs))] ++
    (match metadata with
     | some m => if m.isEmpty then [] else [("metadata", Json.obj m)]
     | none => []))

/-- The `AttestResult` built from a 201 response body in `attest` /
`attest_async`, including the `datetime.fromisoformat(ts.replace("Z",
"+00:00")) if data.get("timestamp") else None` timestamp handling; any
exception there is caught by the enclosing `except` and mapped to a failure
result with `str(e)[:100]`. -/
def attest_on201 (env : Env) (data : Json) : AttestResult :=
  match data with
  | .obj kvs =>
      let tsOpt := List.lookup "timestamp" kvs
      if pyTruthyOpt tsOpt then
        match tsOpt with
        | some (.str ts) =>
            match env.isoParse (String.replace ts "Z" "+00:00") with
            | some t =>
                ⟨true, toPyOpt (List.lookup "attestation_id" kvs),
                  toPyOpt (List.lookup "public_url" kvs), some t,
                  toPyOpt (List.lookup "signature" kvs), none⟩
            | none => ⟨false, none, none, none, none, some (pyTake 100 "Invalid isoformat string")⟩
        | _ => ⟨false, none, none, none, none, some (pyTake 100 "TypeError")⟩
      else
        ⟨true, toPyOpt (List.lookup "attestation_id" kvs),
          toPyOpt (List.lookup "public_url" kvs), none,
          toPyOpt (List.lookup "signature" kvs), none⟩
  | _ => ⟨false, none, none, none, none, some (pyTake 100 "AttributeError")⟩

/-- `TreshipClient.attest`: the whole body runs inside `try`, a
`httpx.TimeoutException` returns `error="Timeout"`, any other exception
returns `error=str(e)[:100]`, a non-201 status returns
`error=f"API error: {status}"`, and a 201 response is decoded by
`attest_on201`.  The function is total: it never raises. -/
def attest (env : Env) (st : State) (action : String)
    (inputs : Option (List (String × Json))) (agentArg : String)
    (metadata : Option (List (String × Json))) (outcome : HttpResult) : AttestResult :=
  let _ := attest_payload st action inputs agentArg metadata
  match outcome with
  | .timeout _ => ⟨false, none, none, none, none, some "Timeout"⟩
  | .netError m => ⟨false, none, none, none, none, some (pyTake 100 m)⟩
  | .resp status body =>
      if status = 201 then
        match body with
        | .error m => ⟨false, none, none, none, none, some (pyTake 100 m)⟩
        | .ok data => attest_on201 env data
      else ⟨false, none, none, none, none, some ("API error: " ++ toString status)⟩

/-- `TreshipClient.attest_async`: the suspending twin of `attest`, with the
same request construction, response parsing and error taxonomy (the python
body is a line-for-line copy that only awaits its network call). -/
def attest_async (env : Env) (st : State) (action : String)
    (inputs : Option (List (String × Json))) (agentArg : String)
    (metadata : Option (List (String × Json))) (outcome : HttpResult) : AttestResult :=
  let _ := attest_payload st action inputs agentArg metadata
  match outcome with
  | .timeout _ => ⟨false, none, none, none, none, some "Timeout"⟩
  | .netError m => ⟨false, none, none, none, none, some (pyTake 100 m)⟩
  | .resp status body =>
      if status = 201 then
        match body with
        | .error m => ⟨false, none, none, none, none, some (pyTake 100 m)⟩
        | .ok data => attest_on201 env data
      else ⟨false, none, none, none, none, some ("API error: " ++ toString status)⟩

/-- The canonical signing payload `_verify_signature` reconstructs:
`json.dumps({"action": ..., "agent": ..., "id": ..., "inputs_hash": ...,
"timestamp": ..., "version": "1.0"}, separators=(",", ":"), sort_keys=True)`,
with the `agent` value `attestation.get("agent_slug") or
attestation.get("agent")` (a falsy or missing slug falls back to `"agent"`,
and a missing fallback serializes as `null`). -/
def canonical_payload (kvs : List (String × Json))
    (actionV idV ihV tsV : Json) : List Nat :=
  let agentJ :=
    if pyTruthyOpt (List.lookup "agent_slug" kvs) then
      ((List.lookup "agent_slug" kvs).getD .null)
    else ((List.lookup "agent" kvs).getD .null)
  utf8Encode (dumps (.obj
    [("action", actionV), ("agent", agentJ), ("id", idV),
     ("inputs_hash", ihV), ("timestamp", tsV), ("version", .str "1.0")]))

/-- `TreshipClient._verify_signature`: rebuild the canonical payload from
the record, base64url-decode the record's signature and embedded public key
(restoring padding), run the Ed25519 check, and compare the embedded key
against the announced key with `rstrip("=")` on both sides (`None` an
announced key gives a vacuous match).  Any exception anywhere in the body —
missing field, non-string signature or key, decode failure, a key that is
not 32 bytes, a failed signature check, or a non-string announced key — is
caught and gives `(False, False)`. -/
def verify_signature (env : Env) (attestation : Json) (expectedKey : Option Json) :
    Bool × Bool :=
  match attestation with
  | .obj kvs =>
      match List.lookup "action" kvs, List.lookup "id" kvs,
        List.lookup "inputs_hash" kvs, List.lookup "timestamp" kvs,
        List.lookup "signature" kvs, List.lookup "public_key" kvs with
      | some actionV, some idV, some ihV, some tsV, some (.str sig), some (.str key) =>
          let payload := canonical_payload kvs actionV idV ihV tsV
          match b64urlDecode (padB64 sig), b64urlDecode (padB64 key) with
          | some sigBytes, some keyBytes =>
              if keyBytes.length = 32 then
                if env.ed25519Verify keyBytes sigBytes payload then
                  match expectedKey with
                  | none => (true, true)
                  | some (.str e) => (true, stripPadS (padB64 key) == stripPadS e)
                  | some _ => (false, false)
                else (false, false)
              else (false, false)
          | _, _ => (false, false)
      | _, _, _, _, _, _ => (false, false)
  | _ => (false, false)

/-- A `VerifyResult` for an exception caught by the `except` of `verify`:
`VerifyResult(valid=False, error=str(e)[:100])`. -/
def verify_exc (m : String) : VerifyResult :=
  ⟨false, false, false, none, some (pyTake 100 m)⟩

/-- `TreshipClient.verify`: fetch the record (any non-200 status returns the
`Not found` failure before anything else happens), decode it, fetch the
public key (its status is never checked), extract the announced key, run
`_verify_signature` locally and assemble
`VerifyResult(valid=sv and km, ...)`.  Every exception inside the `try` —
timeout or network fault on either fetch, an undecodable body, or a body
that is not a dict — is caught and mapped to `verify_exc`. -/
def verify (env : Env) (attestationId : String)
    (recordResp pubkeyResp : HttpResult) : VerifyResult :=
  match recordResp with
  | .timeout m => verify_exc m
  | .netError m => verify_exc m
  | .resp status body =>
      if status ≠ 200 then
        ⟨false, false, false, none, some ("Not found: " ++ attestationId)⟩
      else
        match body with
        | .error m => verify_exc m
        | .ok data =>
            match data with
            | .obj kvs =>
                let attestation := (List.lookup "attestation" kvs).getD data
                match pubkeyResp with
                | .timeout m => verify_exc m
                | .netError m => verify_exc m
                | .resp _ pbody =>
                    match pbody with
                    | .error m => verify_exc m
                    | .ok pdata =>
                        match pdata with
                        | .obj pkvs =>
                            let expected := toPyOpt (List.lookup "public_key" pkvs)
                            let r := verify_signature env attestation expected
                            ⟨r.1 && r.2, r.1, r.2, some attestation, none⟩
                        | _ => verify_exc "AttributeError"
            | _ => verify_exc "AttributeError"

end TreshipClient

/-! ### `treeship_sdk/client.py` — `Treeship` -/

namespace TreeshipSdk

/-- The python exceptions `Treeship.attest` lets escape to its caller:
`ValueError` for missing configuration, `httpx.HTTPStatusError` from
`raise_for_status`, `httpx.TimeoutException` and other transport faults
from `httpx`, `KeyError`/`TypeError` from `AttestResult.from_dict`, and the
JSON decode error from `response.json()`. -/
inductive PyExn where
  | valueError (msg : String)
  | httpStatusError (status : Nat)
  | timeout (msg : String)
  | netError (msg : String)
  | keyError (k : String)
  | jsonError (msg : String)
  | typeError (msg : String)

/-- The `AttestResult` dataclass of `treeship_sdk/client.py` (success-only:
it has no `error` field).  Each field holds the JSON value `from_dict` read
from the response body. -/
structure AttestResult where
  attestation_id : Json
  signature : Json
  payload_hash : Json
  key_id : Json
  timestamp : Json
  url : Json
  verify_command : Json
  agent_slug : Json
  action : Json
  inputs_hash : Json

/-- The configuration state of a `Treeship` client after `__init__`. -/
structure State where
  api_key : String
  agent : String

/-- `Treeship.__init__` / `AsyncTreeship.__init__`:
`api_key or os.environ.get("TREESHIP_API_KEY", "")` and
`agent or os.getenv("TREESHIP_AGENT", "")` — note the empty-string default
for the agent slug, unlike `TreshipClient`. -/
def init (apiKeyArg : String) (envApiKey : Option String)
    (agentArg : String) (envAgent : Option String) : State :=
  ⟨pyOr apiKeyArg (envApiKey.getD ""), pyOr agentArg (envAgent.getD "")⟩

/-- `Treeship.hash` (a `@staticmethod`, shared verbatim by
`AsyncTreeship.hash`): dicts and lists are serialized to canonical compact
JSON first, strings are encoded and hashed directly, and any other value
reaches `hashlib.sha256` unencoded, which raises `TypeError` (`none`). -/
def hash (data : Json) : Option String :=
  match data with
  | .obj _ => some (sha256hex (utf8Encode (dumps data)))
  | .arr _ => some (sha256hex (utf8Encode (dumps data)))
  | .str s => some (sha256hex (utf8Encode s))
  | _ => none

/-- The missing-key access `d[k]` of `from_dict`: `KeyError` when absent. -/
def reqKey (kvs : List (String × Json)) (k : String) : Except PyExn Json :=
  match List.lookup k kvs with
  | some v => .ok v
  | none => .error (.keyError k)

/-- `AttestResult.from_dict`: reads the ten required keys with `d[...]` in
source order; a missing key raises `KeyError`, a non-dict body raises
`TypeError`. -/
def from_dict (d : Json) : Except PyExn AttestResult :=
  match d with
  | .obj kvs => do
      let aid ← reqKey kvs "attestation_id"
      let sig ← reqKey kvs "signature"
      let ph ← reqKey kvs "payload_hash"
      let kid ← reqKey kvs "key_id"
      let ts ← reqKey kvs "timestamp"
      let url ← reqKey kvs "public_url"
      let vc ← reqKey kvs "verify_command"
      let slug ← reqKey kvs "agent_slug"
      let act ← reqKey kvs "action"
      let ih ← reqKey kvs "inputs_hash"
      return ⟨aid, sig, ph, kid, ts, url, vc, slug, act, ih⟩
  | _ => .error (.typeError "not a dict")

/-- The JSON body `Treeship.attest` posts to `/v1/attest`: the action is
transmitted as given (no truncation), the inputs hash falls back to
`self.hash(action)` on a falsy argument, and `metadata or {}`. -/
def attest_payload (st : State) (action : String) (inputsHash : String)
    (agentArg : String) (metadata : Option (List (String × Json))) : Json :=
  .obj [("agent_slug", .str (pyOr agentArg st.agent)),
        ("action", .str action),
        ("inputs_hash", .str (pyOr inputsHash (sha256hex (utf8Encode action)))),
        ("metadata", .obj (metadata.getD []))]

/-- `Treeship.attest`: checks the agent slug and then the API key, raising
`ValueError` for either; posts the payload; `raise_for_status` raises
`httpx.HTTPStatusError` on any non-2xx status; transport faults propagate;
the body is decoded by `from_dict`.  The `Except` error branch models a
raised exception reaching the caller. -/
def attest (st : State) (action : String) (inputsHash : String)
    (agentArg : String) (metadata : Option (List (String × Json)))
    (outcome : HttpResult) : Except PyExn AttestResult :=
  let slug := pyOr agentArg st.agent
  if slug = "" then
    .error (.valueError
      "Agent slug required: pass agent= or set TREESHIP_AGENT environment variable")
  else if st.api_key = "" then
    .error (.valueError
      "API key required: pass api_key= or set TREESHIP_API_KEY environment variable")
  else
    let _ := attest_payload st action inputsHash agentArg metadata
    match outcome with
    | .timeout m => .error (.timeout m)
    | .netError m => .error (.netError m)
    | .resp status body =>
        if 200 ≤ status ∧ status < 300 then
          match body with
          | .error m => .error (.jsonError m)
          | .ok data => from_dict data
        else .error (.httpStatusError status)

end TreeshipSdk

/-! ### `treeship_sdk/async_client.py` — `AsyncTreeship` -/

namespace AsyncTreeship

/-- `AsyncTreeship.attest`: the suspending twin of `TreeshipSdk.attest` (the
python body is a line-for-line copy of `Treeship.attest` that awaits its
network call and uses its own identical `hash` staticmethod); it shares the
`AttestResult` dataclass, the `from_dict` classmethod and the `__init__`
resolution with the sync client by importing them. -/
def attest (st : TreeshipSdk.State) (action : String) (inputsHash : String)
    (agentArg : String) (metadata : Option (List (String × Json)))
    (outcome : HttpResult) : Except TreeshipSdk.PyExn TreeshipSdk.AttestResult :=
  let slug := pyOr agentArg st.agent
  if slug = "" then
    .error (.valueError
      "Agent slug required: pass agent= or set TREESHIP_AGENT environment variable")
  else if st.api_key = "" then
    .error (.valueError
      "API key required: pass api_key= or set TREESHIP_API_KEY environment variable")
  else
    let _ := Json.obj [("agent_slug", .str slug),
      ("action", .str action),
      ("inputs_hash", .str (pyOr inputsHash (sha256hex (utf8Encode action)))),
      ("metadata", .obj (metadata.getD []))]
    match outcome with
    | .timeout m => .error (.timeout m)
    | .netError m => .error (.netError m)
    | .resp status body =>
        if 200 ≤ status ∧ status < 300 then
          match body with
          | .error m => .error (.jsonError m)
          | .ok data => TreeshipSdk.from_dict data
        else .error (.httpStatusError status)

end AsyncTreeship

/-! ### `sidecar/main.py` -/

namespace Sidecar

/-- The JSON body `_attest_to_api` posts to `/v1/attest`: the configured
agent slug, the action truncated by `action[:500]`, and the locally
computed inputs hash. -/
def attest_payload (agentEnv : String) (action : String) (inputsHash : String) : Json :=
  .obj [("agent_slug", .str agentEnv),
        ("action", .str (pyTake 500 action)),
        ("inputs_hash", .str inputsHash)]

end Sidecar

/-! ### Concrete fixtures used by witnesses -/

/-- A concrete library environment: every Ed25519 signature verifies and
every timestamp parses (to its own text). -/
def envTrue : Env := ⟨fun _ _ _ => true, fun s => some s⟩

/-- The entries of a JSON object (`[]` on any other value). -/
def Json.objEntries : Json → List (String × Json)
  | .obj kvs => kvs
  | _ => []

/-- A 43-character base64url text (so unpadded, length 3 mod 4) that decodes
to 32 zero bytes once `_verify_signature` restores its padding. -/
def wkey : String := String.mk (List.replicate 43 'A')

/-- A concrete attestation record with all the fields
`_verify_signature` reads. -/
def wkvs : List (String × Json) :=
  [("action", .str "a"), ("agent_slug", .str "ag"), ("id", .str "ts_1"),
   ("inputs_hash", .str "h"), ("timestamp", .str "t"),
   ("signature", .str "AAAA"), ("public_key", .str wkey)]

/-- A 501-character action string. -/
def longAction : String := String.mk (List.replicate 501 'a')

/-! ### Theorems -/

/-- For a pair `if c then (true, b) else (false, false)`, a `true` second
component forces a `true` first component. -/
theorem ite_pair_snd_imp_fst (c : Prop) [Decidable c] (b : Bool)
    (h : (if c then (true, b) else (false, false)).2 = true) :
    (if c then (true, b) else (false, false)).1 = true := by
  by_cases hc : c <;> simp [hc] at h ⊢

/-- In every branch of `_verify_signature`, a `True` second component comes
with a `True` first component: the returns are `(True, km)` after a
successful Ed25519 check or `(False, False)` from the `except` handler. -/
theorem verify_signature_snd_imp_fst (env : Env) (att : Json) (ek : Option Json)
    (h : (TreshipClient.verify_signature env att ek).2 = true) :
    (TreshipClient.verify_signature env att ek).1 = true := by
  unfold TreshipClient.verify_signature at h ⊢
  revert h
  repeat' split
  all_goals intro h
  all_goals first
    | exact ite_pair_snd_imp_fst _ _ h
    | simp_all

/-- C1: for every `VerifyResult` returned by `TreshipClient.verify` — on
any server response, decode error, missing field, or exception — the field
`valid` equals the conjunction `signature_valid && key_matches`; in
particular every fail-closed branch, which sets `signature_valid = false`
and `key_matches = false`, also has `valid = false`. -/
theorem C1_valid_eq_conj (env : Env) (attestationId : String)
    (recordResp pubkeyResp : HttpResult) :
    (TreshipClient.verify env attestationId recordResp pubkeyResp).valid =
      ((TreshipClient.verify env attestationId recordResp pubkeyResp).signature_valid &&
        (TreshipClient.verify env attestationId recordResp pubkeyResp).key_matches) := by
  unfold TreshipClient.verify TreshipClient.verify_exc
  repeat' split
  all_goals rfl

/-- C10: in every `VerifyResult` produced by `TreshipClient.verify`,
`key_matches = true` implies `signature_valid = true`: the key-identity
check can only succeed on a record whose Ed25519 signature already
verified, because any decoding or verification failure forces both flags to
`false` before the key comparison is reached. -/
theorem C10_key_matches_implies_signature_valid (env : Env)
    (attestationId : String) (recordResp pubkeyResp : HttpResult)
    (h : (TreshipClient.verify env attestationId recordResp pubkeyResp).key_matches = true) :
    (TreshipClient.verify env attestationId recordResp pubkeyResp).signature_valid = true := by
  unfold TreshipClient.verify TreshipClient.verify_exc at h ⊢
  revert h
  repeat' split
  all_goals intro h
  all_goals first
    | rfl
    | exact verify_signature_snd_imp_fst _ _ _ h
    | simp at h

/-- Witness for C10: a concrete verification in which the key check
succeeds, and the signature check is then indeed reported valid. -/
theorem C10_witness :
    (TreshipClient.verify envTrue "ts_1"
        (.resp 200 (.ok (.obj [("attestation", .obj wkvs)])))
        (.resp 200 (.ok (.obj [])))).signature_valid = true :=
  C10_key_matches_implies_signature_valid _ _ _ _ (by rfl)

/-- C6: on identical inputs and identical server responses, the blocking
and the suspending attest paths return bit-identical `AttestResult` values:
`TreshipClient.attest` agrees with `TreshipClient.attest_async`, and
`Treeship.attest` agrees with `AsyncTreeship.attest`, branch for branch,
field for field, error string for error string. -/
theorem C6_sync_async_identical :
    (∀ env st action inputs agentArg metadata outcome,
      TreshipClient.attest env st action inputs agentArg metadata outcome =
        TreshipClient.attest_async env st action inputs agentArg metadata outcome) ∧
    (∀ st action inputsHash agentArg metadata outcome,
      TreeshipSdk.attest st action inputsHash agentArg metadata outcome =
        AsyncTreeship.attest st action inputsHash agentArg metadata outcome) :=
  ⟨fun _ _ _ _ _ _ _ => rfl, fun _ _ _ _ _ _ => rfl⟩

/-- A hex rendering is twice as long as the byte string it renders. -/
theorem bytesHex_length (bs : List Nat) : (bytesHex bs).length = 2 * bs.length := by
  induction bs with
  | nil => rfl
  | cons b bs ih =>
      have h : bytesHex (b :: bs) = byteHex b ++ bytesHex bs := rfl
      rw [h, List.length_append, ih]
      simp [byteHex]
      omega

/-- A SHA-256 digest is 32 bytes for every message. -/
theorem sha256Bytes_length (msg : List Nat) : (sha256Bytes msg).length = 32 := by
  simp [sha256Bytes, wordBytes]

/-- A SHA-256 hex digest is 64 characters for every message. -/
theorem sha256hex_length (msg : List Nat) : (sha256hex msg).length = 64 := by
  have h : (sha256hex msg).length = (bytesHex (sha256Bytes msg)).length := rfl
  rw [h, bytesHex_length, sha256Bytes_length]

/-- `dumpsPairs` is the map that serializes each entry's value. -/
theorem dumpsPairs_eq_map (l : List (String × Json)) :
    dumpsPairs l = l.map (fun kv => (kv.1, dumps kv.2)) := by
  induction l with
  | nil => rfl
  | cons kv l ih => cases kv; simp [dumpsPairs, ih]

/-- Insertion sort by key returns the same list on any two permutations of
an object's rendered entries, provided the keys have no duplicates (python
dicts cannot have duplicate keys). -/
theorem insertionSort_keyLe_eq_of_perm {l1 l2 : List (String × String)}
    (hp : l1.Perm l2) (hn : (l1.map Prod.fst).Nodup) :
    List.insertionSort keyLe l1 = List.insertionSort keyLe l2 := by
  haveI : IsTotal (String × String) keyLe := ⟨fun a b => le_total a.1 b.1⟩
  haveI : IsTrans (String × String) keyLe := ⟨fun _ _ _ hab hbc => le_trans hab hbc⟩
  haveI : IsAntisymm (String × String) (fun p q => p.1 < q.1 ∨ p = q) := by
    constructor
    rintro a b (h1 | rfl) hba
    · rcases hba with h2 | rfl
      · exact absurd (lt_trans h1 h2) (lt_irrefl _)
      · rfl
    · rfl
  have hn2 : (l2.map Prod.fst).Nodup := ((hp.map Prod.fst).nodup_iff).mp hn
  have hnd1 : ((List.insertionSort keyLe l1).map Prod.fst).Nodup :=
    (((List.perm_insertionSort keyLe l1).map Prod.fst).nodup_iff).mpr hn
  have hnd2 : ((List.insertionSort keyLe l2).map Prod.fst).Nodup :=
    (((List.perm_insertionSort keyLe l2).map Prod.fst).nodup_iff).mpr hn2
  have hpair1 : List.Pairwise (fun p q : String × String => p.1 ≠ q.1)
      (List.insertionSort keyLe l1) := List.pairwise_map.mp hnd1
  have hpair2 : List.Pairwise (fun p q : String × String => p.1 ≠ q.1)
      (List.insertionSort keyLe l2) := List.pairwise_map.mp hnd2
  have hs1 := List.sorted_insertionSort keyLe l1
  have hs2 := List.sorted_insertionSort keyLe l2
  refine List.eq_of_perm_of_sorted (r := fun p q : String × String => p.1 < q.1 ∨ p = q)
    (((List.perm_insertionSort keyLe l1).trans hp).trans
      (List.perm_insertionSort keyLe l2).symm) ?_ ?_
  · exact (List.Pairwise.and hs1 hpair1).imp fun h => Or.inl (lt_of_le_of_ne h.1 h.2)
  · exact (List.Pairwise.and hs2 hpair2).imp fun h => Or.inl (lt_of_le_of_ne h.1 h.2)

/-- Two objects whose entry lists are permutations of each other (with
duplicate-free keys) serialize to the same canonical JSON text. -/
theorem dumps_obj_eq_of_perm {kvs1 kvs2 : List (String × Json)}
    (hp : kvs1.Perm kvs2) (hn : (kvs1.map Prod.fst).Nodup) :
    dumps (.obj kvs1) = dumps (.obj kvs2) := by
  have hpp : (dumpsPairs kvs1).Perm (dumpsPairs kvs2) := by
    rw [dumpsPairs_eq_map, dumpsPairs_eq_map]
    exact hp.map _
  have hnn : ((dumpsPairs kvs1).map Prod.fst).Nodup := by
    rw [dumpsPairs_eq_map, List.map_map]
    exact hn
  simp only [dumps]
  rw [insertionSort_keyLe_eq_of_perm hpp hnn]

/-- C5: the hash function is pure (it is a function of its argument alone),
and for every two mappings that are equal as key-value sets but differ in
key insertion order, `Treeship.hash` — and likewise
`TreshipClient._hash_inputs` — produces identical digests, which are
64-character strings. -/
theorem C5_hash_key_order_invariant (kvs1 kvs2 : List (String × Json))
    (hp : kvs1.Perm kvs2) (hn : (kvs1.map Prod.fst).Nodup) :
    TreeshipSdk.hash (.obj kvs1) = TreeshipSdk.hash (.obj kvs2) ∧
    TreshipClient.hash_inputs (some kvs1) = TreshipClient.hash_inputs (some kvs2) ∧
    ∃ d, TreeshipSdk.hash (.obj kvs1) = some d ∧ d.length = 64 := by
  have hd := dumps_obj_eq_of_perm hp hn
  refine ⟨?_, ?_, ⟨sha256hex (utf8Encode (dumps (.obj kvs1))), rfl, sha256hex_length _⟩⟩
  · simp [TreeshipSdk.hash, hd]
  · simp [TreshipClient.hash_inputs, hd]

/-- Witness for C5: two concrete two-entry mappings differing only in entry
order hash identically. -/
theorem C5_witness :
    ([(("b" : String), Json.num 1), ("a", Json.num 2)].Perm
      [("a", Json.num 2), ("b", Json.num 1)]) ∧
    TreeshipSdk.hash (.obj [("b", .num 1), ("a", .num 2)]) =
      TreeshipSdk.hash (.obj [("a", .num 2), ("b", .num 1)]) :=
  ⟨List.Perm.swap _ _ _,
   (C5_hash_key_order_invariant _ _ (List.Perm.swap _ _ _) (by decide)).1⟩

/-- Dropping the leading `'='` run of a prefix of `'='` characters reaches
the remainder of the list. -/
theorem dropWhile_eq_pad (k : Nat) (t : List Char) :
    List.dropWhile (fun c => c = '=') (List.replicate k '=' ++ t) =
      List.dropWhile (fun c => c = '=') t := by
  induction k with
  | zero => rfl
  | succ n ih => simp [List.replicate_succ, List.dropWhile, ih]

/-- Restoring base64 padding and then stripping it with `rstrip("=")` gives
the same text as stripping the original. -/
theorem stripPadS_padB64 (s : String) : stripPadS (padB64 s) = stripPadS s := by
  unfold padB64
  split
  · show stripPadS (s ++ String.mk (List.replicate (4 - s.length % 4) '=')) = stripPadS s
    unfold stripPadS dropTrailingEq
    congr 1
    have hd : (s ++ String.mk (List.replicate (4 - s.length % 4) '=')).data =
        s.data ++ List.replicate (4 - s.length % 4) '=' := rfl
    rw [hd, List.reverse_append, List.reverse_replicate, dropWhile_eq_pad]
  · rfl

/-- C8: during verification of a record whose signature checks out (all six
canonical fields present, signature and key decodable, a 32-byte key, and a
passing Ed25519 check), `key_matches` is computed by comparing the record's
embedded public key against the freshly announced key with base64url
padding stripped from both sides, and when no announced key is available
(`expected_key is None`) `key_matches` is vacuously true. -/
theorem C8_key_match_semantics (env : Env) (kvs : List (String × Json))
    (actionV idV ihV tsV : Json) (sig key : String) (sigBytes keyBytes : List Nat)
    (ha : List.lookup "action" kvs = some actionV)
    (hi : List.lookup "id" kvs = some idV)
    (hh : List.lookup "inputs_hash" kvs = some ihV)
    (ht : List.lookup "timestamp" kvs = some tsV)
    (hs : List.lookup "signature" kvs = some (.str sig))
    (hk : List.lookup "public_key" kvs = some (.str key))
    (hsd : b64urlDecode (padB64 sig) = some sigBytes)
    (hkd : b64urlDecode (padB64 key) = some keyBytes)
    (hlen : keyBytes.length = 32)
    (hver : env.ed25519Verify keyBytes sigBytes
      (TreshipClient.canonical_payload kvs actionV idV ihV tsV) = true) :
    TreshipClient.verify_signature env (.obj kvs) none = (true, true) ∧
    ∀ e, TreshipClient.verify_signature env (.obj kvs) (some (.str e)) =
      (true, stripPadS key == stripPadS e) := by
  constructor
  · unfold TreshipClient.verify_signature
    dsimp only
    rw [ha, hi, hh, ht, hs, hk]
    dsimp only
    rw [hsd, hkd]
    dsimp only
    simp [hlen, hver]
  · intro e
    unfold TreshipClient.verify_signature
    dsimp only
    rw [ha, hi, hh, ht, hs, hk]
    dsimp only
    rw [hsd, hkd]
    dsimp only
    simp [hlen, hver, stripPadS_padB64]

/-- Witness for C8: a concrete record with a 43-character unpadded key and
the all-accepting environment; the vacuous and the self-comparison key
checks both succeed. -/
theorem C8_witness :
    TreshipClient.verify_signature envTrue (.obj wkvs) none = (true, true) ∧
    TreshipClient.verify_signature envTrue (.obj wkvs) (some (.str wkey)) =
      (true, stripPadS wkey == stripPadS wkey) :=
  ⟨(C8_key_match_semantics envTrue wkvs (.str "a") (.str "ts_1") (.str "h") (.str "t")
      "AAAA" wkey [0, 0, 0] (List.replicate 32 0)
      rfl rfl rfl rfl rfl rfl rfl rfl rfl rfl).1,
   (C8_key_match_semantics envTrue wkvs (.str "a") (.str "ts_1") (.str "h") (.str "t")
      "AAAA" wkey [0, 0, 0] (List.replicate 32 0)
      rfl rfl rfl rfl rfl rfl rfl rfl rfl rfl).2 wkey⟩

/-- C2: for a record that carries all six canonical fields with a decodable
signature and 32-byte key, the payload checked by the Ed25519 primitive is
exactly the compact, sorted-key JSON serialization of
`{action, agent, id, inputs_hash, timestamp, version: "1.0"}` with every
value taken from the fetched attestation record itself (no caller-side
state appears), encoded as UTF-8. -/
theorem C2_signed_payload_is_canonical (env : Env) (kvs : List (String × Json))
    (actionV idV ihV tsV : Json) (sig key : String) (sigBytes keyBytes : List Nat)
    (ek : Option Json)
    (ha : List.lookup "action" kvs = some actionV)
    (hi : List.lookup "id" kvs = some idV)
    (hh : List.lookup "inputs_hash" kvs = some ihV)
    (ht : List.lookup "timestamp" kvs = some tsV)
    (hs : List.lookup "signature" kvs = some (.str sig))
    (hk : List.lookup "public_key" kvs = some (.str key))
    (hsd : b64urlDecode (padB64 sig) = some sigBytes)
    (hkd : b64urlDecode (padB64 key) = some keyBytes)
    (hlen : keyBytes.length = 32)
    (hek : ek = none ∨ ∃ e, ek = some (.str e)) :
    (TreshipClient.verify_signature env (.obj kvs) ek).1 =
      env.ed25519Verify keyBytes sigBytes
        (utf8Encode (dumps (.obj
          [("action", actionV),
           ("agent", if pyTruthyOpt (List.lookup "agent_slug" kvs) then
                (List.lookup "agent_slug" kvs).getD .null
              else (List.lookup "agent" kvs).getD .null),
           ("id", idV), ("inputs_hash", ihV), ("timestamp", tsV),
           ("version", .str "1.0")]))) := by
  show (TreshipClient.verify_signature env (.obj kvs) ek).1 =
    env.ed25519Verify keyBytes sigBytes
      (TreshipClient.canonical_payload kvs actionV idV ihV tsV)
  unfold TreshipClient.verify_signature
  dsimp only
  rw [ha, hi, hh, ht, hs, hk]
  dsimp only
  rw [hsd, hkd]
  dsimp only
  rcases hek with rfl | ⟨e, rfl⟩ <;>
    cases hv : env.ed25519Verify keyBytes sigBytes
      (TreshipClient.canonical_payload kvs actionV idV ihV tsV) <;>
    simp [hlen, hv]

/-- Witness for C2: on the concrete record, the verifier's outcome equals
the Ed25519 check of exactly the canonical six-field serialization. -/
theorem C2_witness :
    (TreshipClient.verify_signature envTrue (.obj wkvs) none).1 =
      envTrue.ed25519Verify (List.replicate 32 0) [0, 0, 0]
        (utf8Encode (dumps (.obj
          [("action", .str "a"), ("agent", .str "ag"), ("id", .str "ts_1"),
           ("inputs_hash", .str "h"), ("timestamp", .str "t"),
           ("version", .str "1.0")]))) :=
  C2_signed_payload_is_canonical envTrue wkvs (.str "a") (.str "ts_1") (.str "h") (.str "t")
    "AAAA" wkey [0, 0, 0] (List.replicate 32 0) none
    rfl rfl rfl rfl rfl rfl rfl rfl rfl (Or.inl rfl)

/-- C3 counterexample: the claim is false for `Treeship.attest`
(`treeship_sdk/client.py`), one of its cited sources: under a simulated
timeout with valid configuration, the call does not return a failure
`AttestResult` — the `httpx.TimeoutException` propagates to the caller
(the `Except.error` branch models the raised exception). -/
theorem C3_counterexample :
    TreeshipSdk.attest ⟨"key", "agent"⟩ "x" "" "" none (.timeout "timed out") =
      .error (.timeout "timed out") := rfl

/-- C3 (amended): for `TreshipClient.attest` the claim holds — a timeout, a
non-201 status, or any network fault yields a failure `AttestResult` with a
short diagnostic (`"Timeout"`, `"API error: {status}"`, or `str(e)[:100]`),
and the function is total, so it never raises; `Treeship.attest` of
`treeship_sdk`, by contrast, raises for all of these. -/
theorem C3_amended_never_raises (env : Env) (st : TreshipClient.State)
    (action : String) (inputs : Option (List (String × Json))) (agentArg : String)
    (metadata : Option (List (String × Json))) (m : String) (s : Nat)
    (body : Except String Json) (h : s ≠ 201) :
    TreshipClient.attest env st action inputs agentArg metadata (.timeout m) =
      ⟨false, none, none, none, none, some "Timeout"⟩ ∧
    TreshipClient.attest env st action inputs agentArg metadata (.netError m) =
      ⟨false, none, none, none, none, some (pyTake 100 m)⟩ ∧
    TreshipClient.attest env st action inputs agentArg metadata (.resp s body) =
      ⟨false, none, none, none, none, some ("API error: " ++ toString s)⟩ := by
  refine ⟨rfl, rfl, ?_⟩
  unfold TreshipClient.attest
  simp [h]

/-- Witness for the amended C3: a concrete 500 response maps to a failure
result carrying the diagnostic string. -/
theorem C3_witness :
    TreshipClient.attest envTrue ⟨"", "python-agent"⟩ "x" none "" none
        (.resp 500 (.ok .null)) =
      ⟨false, none, none, none, none, some ("API error: " ++ toString 500)⟩ :=
  (C3_amended_never_raises envTrue ⟨"", "python-agent"⟩ "x" none "" none "boom" 500
    (.ok .null) (by decide)).2.2

/-- C4 counterexample: the claim is false for `TreshipClient.attest`: with
no agent argument and no `TREESHIP_AGENT` environment variable, `__init__`
silently substitutes the built-in default slug `"python-agent"`, and
`attest` raises nothing — it issues the request (consuming the network
outcome) and returns a success result on a 201 response. -/
theorem C4_counterexample :
    (TreshipClient.init "" none "" none).agent = "python-agent" ∧
    TreshipClient.attest envTrue (TreshipClient.init "" none "" none) "x" none "" none
        (.resp 201 (.ok (.obj []))) =
      ⟨true, none, none, none, none, none⟩ ∧
    TreshipClient.attest_payload (TreshipClient.init "" none "" none) "x" none "" none =
      .obj [("agent_slug", .str "python-agent"), ("action", .str "x"),
            ("inputs_hash", .str (TreshipClient.hash_inputs none))] :=
  ⟨rfl, rfl, rfl⟩

/-- C4 (amended): for `treeship_sdk`'s `Treeship.attest` the claim holds —
with no explicit agent, no constructor agent and no environment agent, the
call returns the `ValueError` configuration error regardless of the network
outcome (so before any request is issued); `TreshipClient`, by contrast,
falls back to the built-in default slug `"python-agent"` and never raises. -/
theorem C4_amended_sdk_raises_config_error :
    ∀ apiKeyArg envApiKey action inputsHash metadata outcome,
      TreeshipSdk.attest (TreeshipSdk.init apiKeyArg envApiKey "" none)
          action inputsHash "" metadata outcome =
        .error (.valueError
          "Agent slug required: pass agent= or set TREESHIP_AGENT environment variable") :=
  fun _ _ _ _ _ _ => rfl

/-- C7 counterexample: the claim is false for `Treeship.attest`
(`treeship_sdk/client.py`), one of its cited sources: a 501-character
action is placed in the outgoing payload unchanged, not truncated to 500
characters. -/
theorem C7_counterexample :
    List.lookup "action"
        (Json.objEntries (TreeshipSdk.attest_payload ⟨"k", "ag"⟩ longAction "h" "" none)) =
      some (.str longAction) ∧
    longAction.length = 501 ∧ (pyTake 500 longAction).length = 500 := by
  refine ⟨rfl, ?_, ?_⟩
  · show (List.replicate 501 'a').length = 501
    rw [List.length_replicate]
  · show ((List.replicate 501 'a').take 500).length = 500
    rw [List.length_take, List.length_replicate]
    omega

/-- C7 (amended): `TreshipClient.attest` and the sidecar transmit
`action[:500]` — the input truncated to at most 500 characters, unchanged
when it is at most 500 characters long; `Treeship.attest` of `treeship_sdk`
transmits the action unchanged. -/
theorem C7_amended_truncation (st : TreshipClient.State) (action : String)
    (inputs : Option (List (String × Json))) (agentArg : String)
    (metadata : Option (List (String × Json))) (agentEnv ih : String) :
    List.lookup "action"
        (Json.objEntries (TreshipClient.attest_payload st action inputs agentArg metadata)) =
      some (.str (pyTake 500 action)) ∧
    List.lookup "action" (Json.objEntries (Sidecar.attest_payload agentEnv action ih)) =
      some (.str (pyTake 500 action)) ∧
    (pyTake 500 action).length ≤ 500 ∧
    (action.length ≤ 500 → pyTake 500 action = action) := by
  refine ⟨rfl, rfl, ?_, ?_⟩
  · show (action.data.take 500).length ≤ 500
    rw [List.length_take]
    omega
  · intro hle
    have hle' : action.data.length ≤ 500 := hle
    show String.mk (action.data.take 500) = action
    rw [List.take_of_length_le hle']

/-- Witness for the amended C7: a one-character action is at most 500
characters and is transmitted unchanged. -/
theorem C7_witness :
    (("x" : String).length ≤ 500) ∧ pyTake 500 "x" = "x" :=
  ⟨by decide, (C7_amended_truncation ⟨"", "a"⟩ "x" none "" none "a" "h").2.2.2 (by decide)⟩

/-- C9 counterexample: the fail-closed diagnostic is the string
`"Not found: {attestation_id}"`, not the literal `"not found"` the claim
states. -/
theorem C9_counterexample :
    (TreshipClient.verify envTrue "ts_x" (.resp 404 (.ok .null))
        (.resp 200 (.ok .null))).error = some "Not found: ts_x" ∧
    (TreshipClient.verify envTrue "ts_x" (.resp 404 (.ok .null))
        (.resp 200 (.ok .null))).error ≠ some "not found" :=
  ⟨rfl, by decide⟩

/-- C9 (amended): for every attestation id whose record fetch returns a
status other than 200, `verify` fails closed with `valid = false` and the
diagnostic `error = "Not found: {attestation_id}"`, without retrying and
without attempting the key fetch or the signature check — the result is
independent of the public-key outcome and of the response body. -/
theorem C9_not_found_fail_closed (env : Env) (attestationId : String) (status : Nat)
    (body : Except String Json) (pubkeyResp : HttpResult) (h : status ≠ 200) :
    TreshipClient.verify env attestationId (.resp status body) pubkeyResp =
      ⟨false, false, false, none, some ("Not found: " ++ attestationId)⟩ := by
  unfold TreshipClient.verify
  simp [h]

/-- Witness for the amended C9: a concrete 404 with an undecodable body and
a pubkey fetch that would have timed out still yields exactly the
not-found failure. -/
theorem C9_witness :
    TreshipClient.verify envTrue "ts_x" (.resp 404 (.error "eof")) (.timeout "t") =
      ⟨false, false, false, none, some ("Not found: " ++ "ts_x")⟩ :=
  C9_not_found_fail_closed envTrue "ts_x" 404 (.error "eof") (.timeout "t") (by decide)
